import Mathlib

/-!
Shallow embedding of the Twitter gateway pipeline (src/index.py).

The repository is a single Python file containing four scripts:
`fetch_tweets.py` (collector + engagement filter), `analyze_tweets.py`
(LLM scorer + digest renderer), `send_notification.py` (Discord
notifier) and `run_workflow.py` (orchestrator).  External effects
(HTTP responses, the LLM, the two intermediate files) are modelled as
explicit parameters and an explicit file-system record; every function
below is the direct translation of the Python function of the same
name.
-/

namespace TwitterGateway

/-- `tweet["user"]` object; only `screen_name` is read by the code. -/
structure User where
  screen_name : String
deriving DecidableEq

/-- One tweet record as consumed by the code: the fields read are
`full_text`, `user.screen_name`, `favorite_count`, `retweet_count`,
`id_str`. -/
structure Tweet where
  full_text : String
  user : User
  favorite_count : Nat
  retweet_count : Nat
  id_str : String
deriving DecidableEq

/-- `MIN_LIKES = 10` (fetch_tweets.py configuration). -/
def MIN_LIKES : Nat := 10

/-- An HTTP response from the source API, as far as the code inspects
it: `status_code`, the `"tweets"` array of the JSON body, and the raw
body text printed on error. -/
structure ApiResponse where
  status_code : Nat
  tweets : List Tweet
  text : String

/-- `fetch_list_tweets()`: on status 200 return `data["tweets"]` with no
log output; otherwise print the two error lines and return `[]`.  The
result is the pair (returned tweets, printed log lines). -/
def fetch_list_tweets (response : ApiResponse) : List Tweet × List String :=
  if response.status_code = 200 then
    (response.tweets, [])
  else
    ([], ["Error fetching tweets: " ++ toString response.status_code, response.text])

/-- `filter_tweets_by_engagement(tweets, min_likes=MIN_LIKES)`:
list comprehension keeping tweets with `favorite_count >= min_likes`. -/
def filter_tweets_by_engagement (tweets : List Tweet) (min_likes : Nat := MIN_LIKES) :
    List Tweet :=
  tweets.filter (fun tweet => decide (min_likes ≤ tweet.favorite_count))

/-! ### Python string primitives used by the score parser -/

/-- Whitespace characters stripped by Python's `str.strip()` and
`int()` (ASCII subset: space, tab, newline, vertical tab, form feed,
carriage return). -/
def pyIsSpace (c : Char) : Bool :=
  c = ' ' || c = '\t' || c = '\n' || c = Char.ofNat 11 || c = Char.ofNat 12 || c = '\r'

/-- Python `str.strip()` with no argument: drop leading and trailing
whitespace (on the character list of the string). -/
def pyStrip (cs : List Char) : List Char :=
  ((cs.dropWhile pyIsSpace).reverse.dropWhile pyIsSpace).reverse

/-- Python `str.split(sep)` for a one-character separator (the code
only splits on `'\n'`, `':'` and `'/'`): split at every occurrence,
keeping empty pieces; always returns at least one piece. -/
def pySplit (sep : Char) : List Char → List (List Char)
  | [] => [[]]
  | c :: rest =>
    if c = sep then [] :: pySplit sep rest
    else
      match pySplit sep rest with
      | [] => [[c]]
      | piece :: pieces => (c :: piece) :: pieces

/-- Digit run accepted by Python `int()` after the optional sign:
`digit+ ( "_" digit+ )*` (underscores only between digits). -/
def pyDigitRun : List Char → Bool
  | [] => false
  | c :: rest => c.isDigit && pyDigitTail rest
where
  pyDigitTail : List Char → Bool
  | [] => true
  | ['_'] => false
  | '_' :: c :: rest => c.isDigit && pyDigitTail rest
  | c :: rest => c.isDigit && pyDigitTail rest

/-- Numeric value of a digit/underscore run (underscores skipped). -/
def pyDigitVal (cs : List Char) : Nat :=
  (cs.filter (fun c => decide (c ≠ '_'))).foldl (fun acc c => acc * 10 + (c.toNat - 48)) 0

/-- Python `int(s)` on a decimal string literal: strips surrounding
whitespace, accepts an optional sign and a digit run; `none` models the
raised `ValueError`.  (ASCII digits only.) -/
def pyInt (cs : List Char) : Option Int :=
  match pyStrip cs with
  | '+' :: rest => if pyDigitRun rest then some (Int.ofNat (pyDigitVal rest)) else none
  | '-' :: rest => if pyDigitRun rest then some (-(Int.ofNat (pyDigitVal rest))) else none
  | rest => if pyDigitRun rest then some (Int.ofNat (pyDigitVal rest)) else none

/-! ### analyze_tweets.py -/

/-- The static interest-profile string interpolated into every prompt. -/
def WORK_DESCRIPTION : String :=
  "\nProvide a detailed description of your work interests, projects, and topics\nthat would make a tweet relevant to you. The more specific, the better.\nFor example: \"I'm working on AI agents for productivity, specifically\nfocusing on automating knowledge work tasks and reducing digital distraction.\"\n"

/-- The `tweet_url` f-string. -/
def tweet_url (tweet : Tweet) : String :=
  "https://twitter.com/" ++ tweet.user.screen_name ++ "/status/" ++ tweet.id_str

/-- The `engagement` f-string. -/
def engagementLine (tweet : Tweet) : String :=
  "Likes: " ++ toString tweet.favorite_count ++ ", Retweets: " ++ toString tweet.retweet_count

/-- The fixed prompt template of `analyze_tweet_relevance`, embedding
the tweet text, author, engagement line and `WORK_DESCRIPTION`. -/
def buildPrompt (tweet : Tweet) : String :=
  "\n    Analyze if the following tweet is highly relevant to my work:\n    \n    TWEET: \"" ++ tweet.full_text ++
  "\"\n    By: @" ++ tweet.user.screen_name ++
  "\n    Engagement: " ++ engagementLine tweet ++
  "\n    \n    MY WORK INTERESTS:\n    " ++ WORK_DESCRIPTION ++
  "\n    \n    Rate this tweet's relevance to my work on a scale of 1-10, where:\n    1-3: Not relevant\n    4-6: Somewhat relevant\n    7-10: Highly relevant\n    \n    First provide the numerical score, then a brief explanation.\n    "

/-- The `try:` block of the score extraction:
`int(analysis.split('\n')[0].strip().split(':')[1].strip().split('/')[0])`.
`none` models any exception along the chain (the `IndexError` on `[1]`
or the `ValueError` from `int`). -/
def parseScore (analysis : String) : Option Int :=
  let score_line := (pySplit '\n' analysis.toList).headD []
  match (pySplit ':' (pyStrip score_line)).get? 1 with
  | none => none
  | some piece => pyInt ((pySplit '/' (pyStrip piece)).headD [])

/-- The `try`/`except` around the extraction: the parsed score, or the
fallback `0` if parsing fails. -/
def extractScore (analysis : String) : Int :=
  match parseScore analysis with
  | some score => score
  | none => 0

/-- Result dict of `analyze_tweet_relevance`. -/
structure Analysis where
  tweet : Tweet
  tweet_url : String
  score : Int
  analysis : String
deriving DecidableEq

/-- `analyze_tweet_relevance(tweet)`: the chat completion is modelled by
an oracle `llm` from the user prompt to the response text; the result
records the tweet, its permalink, the extracted score and the raw
response. -/
def analyze_tweet_relevance (llm : String → String) (tweet : Tweet) : Analysis :=
  let analysis := llm (buildPrompt tweet)
  { tweet := tweet
    tweet_url := tweet_url tweet
    score := extractScore analysis
    analysis := analysis }

/-- Stable descending insertion: place `x` before the first element
whose score is `≤ x.score`, after every element whose score is strictly
greater. -/
def insertDesc (x : Analysis) : List Analysis → List Analysis
  | [] => [x]
  | y :: ys => if y.score ≤ x.score then x :: y :: ys else y :: insertDesc x ys

/-- Stable sort by score, highest first: the behaviour of
`sorted(_, key=lambda x: x["score"], reverse=True)` (Python's sort is
stable, and `reverse=True` keeps equal-key elements in input order). -/
def isortDesc : List Analysis → List Analysis
  | [] => []
  | x :: xs => insertDesc x (isortDesc xs)

/-- The `relevant_tweets` local of `generate_digest`: keep analyses with
`score >= 7`, then sort descending by score (stably). -/
def relevant_tweets (analyses : List Analysis) : List Analysis :=
  isortDesc (analyses.filter (fun a => decide (7 ≤ a.score)))

/-- Sentinel returned when no analysis reaches the cutoff. -/
def noRelevantMsg : String :=
  "No highly relevant tweets found in the latest batch."

/-- One digest section per retained item. -/
def digestSection (item : Analysis) : String :=
  "## @" ++ item.tweet.user.screen_name ++ ": " ++ toString item.score ++ "/10 Relevance\n\n" ++
  item.tweet.full_text ++ "\n\n" ++
  "[View Tweet](" ++ item.tweet_url ++ ")\n\n" ++
  "---\n\n"

/-- `generate_digest(analyses)`: sentinel if nothing is relevant, else
the header followed by one section per retained item, in sorted order. -/
def generate_digest (analyses : List Analysis) : String :=
  let rel := relevant_tweets analyses
  if rel.isEmpty then noRelevantMsg
  else (rel.map digestSection).foldl (· ++ ·) "# Relevant Twitter Content Digest\n\n"

/-! ### send_notification.py -/

/-- One element of the `embeds` array of the Discord payload. -/
structure DiscordEmbed where
  title : String
  description : String
  color : Nat
deriving DecidableEq

/-- The webhook JSON payload. -/
structure DiscordPayload where
  content : String
  embeds : List DiscordEmbed
deriving DecidableEq

/-- The `description` expression of `send_to_discord`:
`digest[:2000] + "..." if len(digest) > 2000 else digest`. -/
def discordDescription (digest : String) : String :=
  if 2000 < digest.length then digest.take 2000 ++ "..." else digest

/-- `send_to_discord(digest)`: the payload posted to the webhook. -/
def send_to_discord (digest : String) : DiscordPayload :=
  { content := "New Twitter Digest Available!"
    embeds := [{ title := "Twitter Content Digest"
                 description := discordDescription digest
                 color := 3447003 }] }

/-! ### run_workflow.py — the orchestrator over an explicit file system -/

/-- The two intermediate artifacts: `tweets_for_analysis.json` and
`twitter_digest.md`; `none` means the file does not exist. -/
structure FS where
  tweets_for_analysis : Option (List Tweet)
  twitter_digest : Option String
deriving DecidableEq

/-- `save_tweets_for_analysis(tweets)`: write the JSON artifact. -/
def save_tweets_for_analysis (tweets : List Tweet) (fs : FS) : FS :=
  { fs with tweets_for_analysis := some tweets }

/-- `fetch_tweets.py` main: fetch, filter by engagement, save. -/
def fetch_tweets_main (response : ApiResponse) (fs : FS) : FS :=
  let all_tweets := (fetch_list_tweets response).1
  let filtered := filter_tweets_by_engagement all_tweets MIN_LIKES
  save_tweets_for_analysis filtered fs

/-- `analyze_tweets.py` main: load the saved tweets (crashing — `none` —
if the artifact is missing), score each, write the digest artifact.
The digest is written unconditionally once scoring completes. -/
def analyze_tweets_main (llm : String → String) (fs : FS) : Option FS :=
  fs.tweets_for_analysis.map (fun tweets =>
    let analyses := tweets.map (analyze_tweet_relevance llm)
    { fs with twitter_digest := some (generate_digest analyses) })

/-- `send_notification.py` main: read the digest artifact and post it
(`none` if the file is missing — unreachable under the orchestrator's
guard). -/
def send_notification_main (fs : FS) : Option DiscordPayload :=
  fs.twitter_digest.map send_to_discord

/-- The conditional edge of `run_full_workflow`: notify only if
`twitter_digest.md` exists, else skip delivery. -/
def notify_phase (fs : FS) : Option DiscordPayload :=
  if fs.twitter_digest.isSome then send_notification_main fs else none

/-- `run_full_workflow()`: fetch stage, analyze stage (a crash leaves
the file system unchanged), then the guarded notify stage.  Returns the
final file system and the delivered payload, if any. -/
def run_full_workflow (llm : String → String) (response : ApiResponse) (fs : FS) :
    FS × Option DiscordPayload :=
  let fs1 := fetch_tweets_main response fs
  let fs2 := (analyze_tweets_main llm fs1).getD fs1
  (fs2, notify_phase fs2)

/-! ### Lemmas about the stable descending sort -/

theorem mem_insertDesc {a x : Analysis} {l : List Analysis} :
    a ∈ insertDesc x l ↔ a = x ∨ a ∈ l := by
  induction l with
  | nil => simp [insertDesc]
  | cons y ys ih =>
    rw [insertDesc]
    by_cases hxy : y.score ≤ x.score
    · rw [if_pos hxy]
      simp [List.mem_cons]
    · rw [if_neg hxy]
      simp only [List.mem_cons, ih]
      tauto

theorem mem_isortDesc {a : Analysis} {l : List Analysis} :
    a ∈ isortDesc l ↔ a ∈ l := by
  induction l with
  | nil => simp [isortDesc]
  | cons x xs ih =>
    rw [isortDesc]
    simp only [mem_insertDesc, ih, List.mem_cons]

theorem pairwise_insertDesc (x : Analysis) (l : List Analysis)
    (h : l.Pairwise (fun a b => b.score ≤ a.score)) :
    (insertDesc x l).Pairwise (fun a b => b.score ≤ a.score) := by
  induction l with
  | nil => simp [insertDesc]
  | cons y ys ih =>
    rcases List.pairwise_cons.1 h with ⟨hy, hys⟩
    by_cases hxy : y.score ≤ x.score
    · rw [insertDesc, if_pos hxy]
      refine List.pairwise_cons.2 ⟨?_, h⟩
      intro b hb
      rcases List.mem_cons.1 hb with rfl | hb
      · exact hxy
      · exact le_trans (hy b hb) hxy
    · rw [insertDesc, if_neg hxy]
      refine List.pairwise_cons.2 ⟨?_, ih hys⟩
      intro b hb
      rcases mem_insertDesc.1 hb with rfl | hb
      · exact le_of_lt (lt_of_not_le hxy)
      · exact hy b hb

theorem pairwise_isortDesc (l : List Analysis) :
    (isortDesc l).Pairwise (fun a b => b.score ≤ a.score) := by
  induction l with
  | nil => simp [isortDesc]
  | cons x xs ih => exact pairwise_insertDesc x (isortDesc xs) ih

theorem filter_score_insertDesc (k : Int) (x : Analysis) (l : List Analysis) :
    (insertDesc x l).filter (fun a => decide (a.score = k)) =
      if x.score = k then x :: l.filter (fun a => decide (a.score = k))
      else l.filter (fun a => decide (a.score = k)) := by
  induction l with
  | nil => by_cases hx : x.score = k <;> simp [insertDesc, hx]
  | cons y ys ih =>
    rw [insertDesc]
    by_cases hxy : y.score ≤ x.score
    · rw [if_pos hxy]
      by_cases hx : x.score = k <;> simp [List.filter_cons, hx]
    · rw [if_neg hxy]
      have hxlt : x.score < y.score := lt_of_not_le hxy
      by_cases hx : x.score = k
      · have hy : ¬ y.score = k := by
          intro hyk
          exact absurd (hx ▸ hxlt) (by rw [hyk]; exact lt_irrefl k)
        simp [List.filter_cons, hy, ih, hx]
      · by_cases hy : y.score = k <;> simp [List.filter_cons, hy, ih, hx]

theorem filter_score_isortDesc (k : Int) (l : List Analysis) :
    (isortDesc l).filter (fun a => decide (a.score = k)) =
      l.filter (fun a => decide (a.score = k)) := by
  induction l with
  | nil => rfl
  | cons x xs ih =>
    rw [isortDesc, filter_score_insertDesc]
    by_cases hx : x.score = k <;> simp [List.filter_cons, hx, ih]

theorem mem_relevant_tweets {a : Analysis} {l : List Analysis} :
    a ∈ relevant_tweets l ↔ a ∈ l ∧ 7 ≤ a.score := by
  rw [relevant_tweets, mem_isortDesc]
  simp [List.mem_filter]

/-! ### Sample data for witnesses -/

/-- A concrete tweet used by witnesses. -/
def sampleTweet : Tweet :=
  { full_text := "hello world"
    user := { screen_name := "alice" }
    favorite_count := 15
    retweet_count := 2
    id_str := "123" }

/-- A concrete analysis at score 8 (above the cutoff). -/
def sampleHigh : Analysis :=
  { tweet := sampleTweet, tweet_url := "u8", score := 8, analysis := "r8" }

/-- A concrete analysis at score 6 (cutoff minus one). -/
def sampleSix : Analysis :=
  { tweet := sampleTweet, tweet_url := "u6", score := 6, analysis := "r6" }

/-- An LLM oracle answering with prose that defeats the score parser. -/
def badLlm : String → String := fun _ => "I cannot rate this tweet."

/-- A 2001-character digest, one character over the transport limit. -/
def longDigest : String := String.mk (List.replicate 2001 'a')

/-! ### Claim theorems -/

/-- Claim C1: `filter_tweets_by_engagement` returns exactly the sublist
of tweets with `favorite_count ≥ k` (a sublist, so relative order is
preserved; a pure function, so there are no side effects), and the
empty list filters to the empty list. -/
theorem C1_filter_exact_subset (tweets : List Tweet) (k : Nat) :
    (filter_tweets_by_engagement tweets k).Sublist tweets ∧
    (∀ t, t ∈ filter_tweets_by_engagement tweets k ↔ t ∈ tweets ∧ k ≤ t.favorite_count) ∧
    filter_tweets_by_engagement [] k = [] := by
  refine ⟨List.filter_sublist tweets, ?_, rfl⟩
  intro t
  simp [filter_tweets_by_engagement, List.mem_filter]

/-- Claim C2: the list `relevant_tweets` rendered by `generate_digest`
(one section per element, in list order) is sorted in non-increasing
score order, and the sort is stable: for every score value `k`, the
retained items of score `k` appear exactly as they did in the input
(post-cutoff) order. -/
theorem C2_digest_sorted_stable (analyses : List Analysis) :
    (relevant_tweets analyses).Pairwise (fun a b => b.score ≤ a.score) ∧
    ∀ k : Int, (relevant_tweets analyses).filter (fun a => decide (a.score = k)) =
      (analyses.filter (fun a => decide (7 ≤ a.score))).filter (fun a => decide (a.score = k)) :=
  ⟨pairwise_isortDesc _, fun k => filter_score_isortDesc k _⟩

/-- Claim C3: an analysis with score 6 (cutoff minus one) never appears
among the digest's retained items, and one with score ≥ 7 always
does. -/
theorem C3_cutoff_boundary (analyses : List Analysis) (a : Analysis) (ha : a ∈ analyses) :
    (a.score = 6 → a ∉ relevant_tweets analyses) ∧
    (7 ≤ a.score → a ∈ relevant_tweets analyses) := by
  constructor
  · intro h6 hmem
    have h7 := (mem_relevant_tweets.1 hmem).2
    rw [h6] at h7
    exact absurd h7 (by decide)
  · intro h7
    exact mem_relevant_tweets.2 ⟨ha, h7⟩

/-- Witness for C3 at a concrete two-element input. -/
theorem C3_cutoff_boundary_witness :
    sampleSix ∉ relevant_tweets [sampleSix, sampleHigh] ∧
    sampleHigh ∈ relevant_tweets [sampleSix, sampleHigh] :=
  ⟨(C3_cutoff_boundary [sampleSix, sampleHigh] sampleSix (by decide)).1 rfl,
   (C3_cutoff_boundary [sampleSix, sampleHigh] sampleHigh (by decide)).2 (by decide)⟩

/-- Claim C4: when the first line of the LLM response fails to parse,
the scorer assigns score 0, keeps the raw response verbatim in the
`analysis` field, and the resulting item can never be among the
digest's retained items (0 < 7). -/
theorem C4_parse_failure_zero (llm : String → String) (tweet : Tweet)
    (h : parseScore (llm (buildPrompt tweet)) = none) :
    (analyze_tweet_relevance llm tweet).score = 0 ∧
    (analyze_tweet_relevance llm tweet).analysis = llm (buildPrompt tweet) ∧
    ∀ l : List Analysis, analyze_tweet_relevance llm tweet ∉ relevant_tweets l := by
  have h0 : (analyze_tweet_relevance llm tweet).score = 0 := by
    show extractScore (llm (buildPrompt tweet)) = 0
    unfold extractScore
    rw [h]
  refine ⟨h0, rfl, ?_⟩
  intro l hmem
  have h7 := (mem_relevant_tweets.1 hmem).2
  rw [h0] at h7
  exact absurd h7 (by decide)

/-- Witness for C4 with an unparseable prose response. -/
theorem C4_parse_failure_zero_witness :
    (analyze_tweet_relevance badLlm sampleTweet).score = 0 ∧
    (analyze_tweet_relevance badLlm sampleTweet).analysis = "I cannot rate this tweet." ∧
    analyze_tweet_relevance badLlm sampleTweet ∉
      relevant_tweets [analyze_tweet_relevance badLlm sampleTweet] := by
  have h := C4_parse_failure_zero badLlm sampleTweet (by decide)
  exact ⟨h.1, h.2.1, h.2.2 _⟩

/-- Claim C5: the delivered Discord description is the first 2000
characters of the digest followed by the fixed `"..."` marker when the
digest exceeds 2000 characters, and the digest unchanged otherwise. -/
theorem C5_discord_truncation (digest : String) :
    (2000 < digest.length →
      (send_to_discord digest).embeds.map (fun e => e.description) =
        [digest.take 2000 ++ "..."]) ∧
    (digest.length ≤ 2000 →
      (send_to_discord digest).embeds.map (fun e => e.description) = [digest]) := by
  constructor
  · intro h
    simp [send_to_discord, discordDescription, if_pos h]
  · intro h
    simp [send_to_discord, discordDescription, if_neg (not_lt.2 h)]

/-- Witness for C5 at a 2001-character digest and a short digest. -/
theorem C5_discord_truncation_witness :
    (send_to_discord longDigest).embeds.map (fun e => e.description) =
      [longDigest.take 2000 ++ "..."] ∧
    (send_to_discord "short").embeds.map (fun e => e.description) = ["short"] :=
  ⟨(C5_discord_truncation longDigest).1 (by
      have h : longDigest.length = 2001 := List.length_replicate 2001 'a'
      omega),
   (C5_discord_truncation "short").2 (by decide)⟩

/-- A concrete failing API response. -/
def failResp : ApiResponse := { status_code := 404, tweets := [sampleTweet], text := "not found" }

/-- A concrete successful API response carrying zero tweets. -/
def emptyOkResp : ApiResponse := { status_code := 200, tweets := [], text := "ok" }

/-- An LLM oracle answering in the expected `Score: n/10` shape. -/
def goodLlm : String → String := fun _ => "Score: 8/10\nThis matches your interests."

/-- Claim C6: on any non-200 response the collector logs the status and
body and returns `[]`; a failed fetch is therefore indistinguishable
(by return value) from a successful fetch that found zero tweets. -/
theorem C6_fetch_failure_empty (r : ApiResponse) (h : r.status_code ≠ 200) :
    (fetch_list_tweets r).1 = [] ∧
    (fetch_list_tweets r).2 = ["Error fetching tweets: " ++ toString r.status_code, r.text] ∧
    ∀ r' : ApiResponse, r'.status_code = 200 → r'.tweets = [] →
      (fetch_list_tweets r).1 = (fetch_list_tweets r').1 := by
  refine ⟨by simp [fetch_list_tweets, h], by simp [fetch_list_tweets, h], ?_⟩
  intro r' h200 hempty
  simp [fetch_list_tweets, h, h200, hempty]

/-- Witness for C6 at a concrete 404 response and a concrete empty 200
response. -/
theorem C6_fetch_failure_empty_witness :
    (fetch_list_tweets failResp).1 = [] ∧
    (fetch_list_tweets failResp).2 = ["Error fetching tweets: 404", "not found"] ∧
    (fetch_list_tweets failResp).1 = (fetch_list_tweets emptyOkResp).1 := by
  have h := C6_fetch_failure_empty failResp (by decide)
  exact ⟨h.1, h.2.1, h.2.2 emptyOkResp rfl rfl⟩

/-- Counterexample to claim C7: the response `"Score: 42/10"` parses
successfully, and the scorer then produces score 42, which is neither 0
nor in the 1–10 range — the code never validates the parsed value. -/
theorem C7_score_range_counterexample :
    (analyze_tweet_relevance (fun _ => "Score: 42/10") sampleTweet).score = 42 ∧
    parseScore "Score: 42/10" ≠ none ∧
    ¬((analyze_tweet_relevance (fun _ => "Score: 42/10") sampleTweet).score = 0 ∨
      (1 ≤ (analyze_tweet_relevance (fun _ => "Score: 42/10") sampleTweet).score ∧
       (analyze_tweet_relevance (fun _ => "Score: 42/10") sampleTweet).score ≤ 10)) := by
  refine ⟨by decide, by decide, by decide⟩

/-- Claim C7 as amended: the score is 0 when the first line is
unparseable and otherwise is exactly the parsed integer, which the code
does not constrain to 1–10. -/
theorem C7_score_parsed_or_zero (llm : String → String) (tweet : Tweet) :
    (parseScore (llm (buildPrompt tweet)) = none →
      (analyze_tweet_relevance llm tweet).score = 0) ∧
    ∀ n : Int, parseScore (llm (buildPrompt tweet)) = some n →
      (analyze_tweet_relevance llm tweet).score = n := by
  constructor
  · intro h
    show extractScore (llm (buildPrompt tweet)) = 0
    unfold extractScore
    rw [h]
  · intro n h
    show extractScore (llm (buildPrompt tweet)) = n
    unfold extractScore
    rw [h]

/-- Witness for the amended C7: an unparseable response scores 0 and a
parseable one scores its parsed value. -/
theorem C7_score_parsed_or_zero_witness :
    (analyze_tweet_relevance badLlm sampleTweet).score = 0 ∧
    (analyze_tweet_relevance goodLlm sampleTweet).score = 8 :=
  ⟨(C7_score_parsed_or_zero badLlm sampleTweet).1 (by decide),
   (C7_score_parsed_or_zero goodLlm sampleTweet).2 8 (by decide)⟩

/-- Claim C8: the orchestrator runs the notify phase exactly when the
digest artifact exists, skips delivery entirely when it does not, and
`run_full_workflow` applies this guard to the post-analyze file
system. -/
theorem C8_notify_iff_digest :
    (∀ fs : FS, (notify_phase fs).isSome ↔ fs.twitter_digest.isSome) ∧
    (∀ fs : FS, fs.twitter_digest = none → notify_phase fs = none) ∧
    (∀ (llm : String → String) (response : ApiResponse) (fs0 : FS),
      (run_full_workflow llm response fs0).2 =
        notify_phase ((analyze_tweets_main llm (fetch_tweets_main response fs0)).getD
          (fetch_tweets_main response fs0))) := by
  refine ⟨?_, ?_, ?_⟩
  · intro fs
    by_cases h : fs.twitter_digest.isSome
    · simp [notify_phase, send_notification_main, h]
    · simp [notify_phase, h]
  · intro fs h
    simp [notify_phase, h]
  · intro llm response fs0
    rfl

/-- Witness for C8 at concrete file systems with and without the digest
artifact. -/
theorem C8_notify_iff_digest_witness :
    ((notify_phase { tweets_for_analysis := none, twitter_digest := some "d" }).isSome ↔
      (({ tweets_for_analysis := none, twitter_digest := some "d" } : FS)).twitter_digest.isSome) ∧
    notify_phase { tweets_for_analysis := none, twitter_digest := none } = none :=
  ⟨C8_notify_iff_digest.1 { tweets_for_analysis := none, twitter_digest := some "d" },
   C8_notify_iff_digest.2.1 { tweets_for_analysis := none, twitter_digest := none } rfl⟩

/-- Claim C9: the scoring stage, once it runs, always writes the digest
artifact; when nothing reaches the cutoff the artifact holds the
sentinel text, the orchestrator still takes the notify edge, and the
sentinel (being under the 2000-character limit) is delivered
verbatim. -/
theorem C9_sentinel_delivery :
    (∀ (llm : String → String) (tweets : List Tweet) (fs : FS),
      ((analyze_tweets_main llm (save_tweets_for_analysis tweets fs)).getD fs).twitter_digest =
        some (generate_digest (tweets.map (analyze_tweet_relevance llm)))) ∧
    (∀ analyses : List Analysis, (∀ a ∈ analyses, a.score < 7) →
      generate_digest analyses = noRelevantMsg) ∧
    (∀ (llm : String → String) (response : ApiResponse) (fs0 : FS),
      (∀ t : Tweet, (analyze_tweet_relevance llm t).score < 7) →
      (run_full_workflow llm response fs0).2 = some (send_to_discord noRelevantMsg)) ∧
    (send_to_discord noRelevantMsg).embeds.map (fun e => e.description) = [noRelevantMsg] := by
  have h2 : ∀ analyses : List Analysis, (∀ a ∈ analyses, a.score < 7) →
      generate_digest analyses = noRelevantMsg := by
    intro analyses h
    have hfil : analyses.filter (fun a => decide (7 ≤ a.score)) = [] := by
      rw [List.filter_eq_nil_iff]
      intro a ha
      simp only [decide_eq_true_eq]
      exact not_le.2 (h a ha)
    simp [generate_digest, relevant_tweets, hfil, isortDesc]
  refine ⟨fun llm tweets fs => rfl, h2, ?_, by decide⟩
  intro llm response fs0 h
  have hall : ∀ a ∈ (filter_tweets_by_engagement (fetch_list_tweets response).1
      MIN_LIKES).map (analyze_tweet_relevance llm), a.score < 7 := by
    intro a ha
    rcases List.mem_map.1 ha with ⟨t, _, rfl⟩
    exact h t
  have hdig := h2 _ hall
  show some (send_to_discord (generate_digest
      ((filter_tweets_by_engagement (fetch_list_tweets response).1 MIN_LIKES).map
        (analyze_tweet_relevance llm)))) = some (send_to_discord noRelevantMsg)
  rw [hdig]

/-- Witness for C9: a failed fetch yields zero tweets, scoring still
writes the sentinel digest, and the sentinel is delivered. -/
theorem C9_sentinel_delivery_witness :
    ((analyze_tweets_main (fun _ => "") (save_tweets_for_analysis []
        { tweets_for_analysis := none, twitter_digest := none })).getD
      { tweets_for_analysis := none, twitter_digest := none }).twitter_digest =
      some (generate_digest (([] : List Tweet).map (analyze_tweet_relevance (fun _ => "")))) ∧
    generate_digest [] = noRelevantMsg ∧
    (run_full_workflow (fun _ => "") failResp
      { tweets_for_analysis := none, twitter_digest := none }).2 =
      some (send_to_discord noRelevantMsg) := by
  have h := C9_sentinel_delivery
  refine ⟨h.1 (fun _ => "") [] _, h.2.1 [] (by simp), h.2.2.1 (fun _ => "") failResp _ ?_⟩
  intro t
  show extractScore "" < 7
  decide

/-- Claim C10: score extraction is total — it always returns an
integer; a first line whose colon-split has no second piece (no colon
at all, e.g. the bare response `"8"`), an empty token before the slash,
or a non-numeric token between the colon and the slash all fall back to
score 0. -/
theorem C10_extraction_total (s : String) :
    (∃ n : Int, extractScore s = n) ∧
    ((pySplit ':' (pyStrip ((pySplit '\n' s.toList).headD []))).length ≤ 1 →
      extractScore s = 0) ∧
    extractScore "8" = 0 ∧
    extractScore "Score: /10" = 0 ∧
    extractScore "Score: abc/10" = 0 := by
  refine ⟨⟨extractScore s, rfl⟩, ?_, by decide, by decide, by decide⟩
  intro h
  have hget : (pySplit ':' (pyStrip ((pySplit '\n' s.toList).headD []))).get? 1 = none :=
    List.get?_eq_none.2 h
  have hp : parseScore s = none := by
    unfold parseScore
    simp only [hget]
  unfold extractScore
  rw [hp]

/-- Witness for C10 at the bare numeric response `"8"`. -/
theorem C10_extraction_total_witness : extractScore "8" = 0 :=
  (C10_extraction_total "8").2.1 (by decide)

end TwitterGateway
